import Mathlib

/-!
Shallow embedding of the PhotoVault face-detection/tagging pipeline
(`photovault/services/face_detection_service.py`) and of the app-storage
upload path (`photovault/services/app_storage_service.py`).

The relational store (`db`) is modelled as explicit state: a `Store` holds
the `Photo`, `Person` and `PhotoPerson` (face-region) tables as lists.
External effects — the OpenCV capability probe, `os.path.exists`,
`cv2.imread` plus the cascade detector, and whether `db.session.commit()`
succeeds — are modelled by an `Env` of oracles.  Every operation is a pure
function from `Env` and `Store` to a result and the next `Store`; the
`except ...: db.session.rollback(); return False` pattern of the source is
modelled by returning the unchanged input store with `false`.
-/

/-- A detection rectangle as returned by `detectMultiScale`. -/
structure Rect where
  x : Nat
  y : Nat
  w : Nat
  h : Nat
deriving DecidableEq

/-- One element of the `face_results` list built by `detect_faces_in_photo`:
`{'id': i, 'x': x, 'y': y, 'width': w, 'height': h, 'confidence': 0.8}`. -/
structure FaceResult where
  id : Nat
  x : Nat
  y : Nat
  width : Nat
  height : Nat
  confidence : ℚ
deriving DecidableEq

/-- Row of the `Photo` table (the fields this service reads). -/
structure Photo where
  id : Nat
  user_id : Nat
  file_path : String
deriving DecidableEq

/-- Row of the `Person` table (the fields this service reads). -/
structure Person where
  id : Nat
  user_id : Nat
  name : String
deriving DecidableEq

/-- Row of the `PhotoPerson` table: a face region of one photo, optionally
linked to a person and marked verified. -/
structure PhotoPerson where
  id : Nat
  photo_id : Nat
  person_id : Option Nat
  face_x : Nat
  face_y : Nat
  face_width : Nat
  face_height : Nat
  confidence : ℚ
  verified : Bool
deriving DecidableEq

/-- The relational store: the three tables the service touches, plus the
primary-key counter the database would use for new `PhotoPerson` rows. -/
structure Store where
  photos : List Photo
  people : List Person
  regions : List PhotoPerson
  nextRegionId : Nat
deriving DecidableEq

/-- Environment of external effects:
`available` is the one-shot OpenCV import probe recorded in `__init__`;
`fileExists` is `os.path.exists`;
`imread` composes `cv2.imread` with grayscale conversion and the Haar
cascade: `none` when the image cannot be loaded (`imread` returned `None`
or decoding raised), otherwise the rectangles `detectMultiScale` returns;
`commitOk` tells whether `db.session.commit()` succeeds or raises. -/
structure Env where
  available : Bool
  fileExists : String → Bool
  imread : String → Option (List Rect)
  commitOk : Bool

/-- The placeholder confidence the source assigns to every detection. -/
def placeholderConfidence : ℚ := 8 / 10

/-- `FaceDetectionService.is_available`. -/
def is_available (env : Env) : Bool :=
  env.available

/-- `FaceDetectionService.detect_faces_in_photo`: empty when the probe
reported unavailable; empty (with a warning log) when the image cannot be
loaded; otherwise the enumerated cascade rectangles with the placeholder
confidence. -/
def detect_faces_in_photo (env : Env) (photo_path : String) : List FaceResult :=
  if !env.available then []
  else
    match env.imread photo_path with
    | none => []
    | some faces =>
      faces.enum.map (fun p =>
        { id := p.1, x := p.2.x, y := p.2.y, width := p.2.w, height := p.2.h,
          confidence := placeholderConfidence })

/-- The dedup lookup of `process_photo_for_faces`:
`PhotoPerson.query.filter_by(photo_id=..., face_x=..., face_y=...,
face_width=..., face_height=...).first()`. -/
def findExisting (regions : List PhotoPerson) (photo_id : Nat) (f : FaceResult) :
    Option PhotoPerson :=
  regions.find? (fun pp =>
    pp.photo_id == photo_id && pp.face_x == f.x && pp.face_y == f.y &&
    pp.face_width == f.width && pp.face_height == f.height)

/-- The fresh row `PhotoPerson(photo_id=..., person_id=None, ...,
confidence=face['confidence'], verified=False)` built for an unseen face. -/
def newRegion (nid photo_id : Nat) (f : FaceResult) : PhotoPerson :=
  { id := nid, photo_id := photo_id, person_id := none,
    face_x := f.x, face_y := f.y, face_width := f.width, face_height := f.height,
    confidence := f.confidence, verified := false }

/-- The `for face in faces:` loop of `process_photo_for_faces`.  The session
autoflushes pending inserts before each dedup query, so the query sees the
committed rows together with the rows added earlier in the same loop; the
list argument carries that combined view. -/
def insertLoop (photo_id : Nat) :
    List FaceResult → List PhotoPerson → Nat → List PhotoPerson × Nat
  | [], regions, nid => (regions, nid)
  | f :: rest, regions, nid =>
    match findExisting regions photo_id f with
    | some _ => insertLoop photo_id rest regions nid
    | none => insertLoop photo_id rest (regions ++ [newRegion nid photo_id f]) (nid + 1)

/-- `FaceDetectionService.process_photo_for_faces`.  Returns the success
flag and the store after the call; every failure path of the source
(`return False` or the `except` handler with `db.session.rollback()`)
leaves the store unchanged. -/
def process_photo_for_faces (env : Env) (st : Store) (photo_id : Nat) :
    Bool × Store :=
  if !env.available then (false, st)
  else
    match st.photos.find? (fun p => p.id == photo_id) with
    | none => (false, st)
    | some photo =>
      if !env.fileExists photo.file_path then (false, st)
      else
        let faces := detect_faces_in_photo env photo.file_path
        if faces.isEmpty then (true, st)
        else
          let res := insertLoop photo_id faces st.regions st.nextRegionId
          if env.commitOk then
            (true, { st with regions := res.1, nextRegionId := res.2 })
          else (false, st)

/-- `FaceDetectionService.tag_face`: look the region up by primary key,
fail if absent, otherwise set `person_id` and `verified = True` and commit;
a failing commit rolls back to the pre-call store. -/
def tag_face (env : Env) (st : Store) (photo_person_id person_id : Nat) :
    Bool × Store :=
  match st.regions.find? (fun pp => pp.id == photo_person_id) with
  | none => (false, st)
  | some _ =>
    if env.commitOk then
      (true, { st with regions := st.regions.map (fun pp =>
        if pp.id == photo_person_id then
          { pp with person_id := some person_id, verified := true }
        else pp) })
    else (false, st)

/-- The dictionary returned by `get_face_detection_stats`. -/
structure Stats where
  total_photos : Nat
  photos_with_faces : Nat
  verified_tags : Nat
  unverified_tags : Nat
  unique_people : Nat
  detection_available : Bool
  error : Option String
deriving DecidableEq

/-- `FaceDetectionService.get_face_detection_stats`.  `queryOk` tells
whether the underlying queries succeed; `errMsg` is the stringified
exception used in the `except` branch, which returns all-zero counts,
`detection_available: False` and the error text. -/
def get_face_detection_stats (env : Env) (st : Store) (user_id : Nat)
    (queryOk : Bool) (errMsg : String) : Stats :=
  if queryOk then
    { total_photos := (st.photos.filter (fun p => p.user_id == user_id)).length
      photos_with_faces := (st.photos.filter (fun p =>
        p.user_id == user_id && st.regions.any (fun pp => pp.photo_id == p.id))).length
      verified_tags := (st.regions.filter (fun pp =>
        pp.verified && st.photos.any (fun p =>
          p.id == pp.photo_id && p.user_id == user_id))).length
      unverified_tags := (st.regions.filter (fun pp =>
        !pp.verified && st.photos.any (fun p =>
          p.id == pp.photo_id && p.user_id == user_id))).length
      unique_people := (st.people.filter (fun p => p.user_id == user_id)).length
      detection_available := env.available
      error := none }
  else
    { total_photos := 0, photos_with_faces := 0, verified_tags := 0,
      unverified_tags := 0, unique_people := 0,
      detection_available := false, error := some errMsg }

/-- Python truthiness of the optional `user_id` argument of `upload_file`:
`if user_id:` is false for `None` and for the empty string. -/
def pyTruthy : Option String → Bool
  | none => false
  | some s => s != ""

/-- `AppStorageService.upload_file`: fails fast when the storage backend is
unavailable; otherwise builds `users/{user_id}/{filename}` when `user_id`
is truthy and `uploads/{filename}` otherwise, then attempts the upload.
`uploadOk` tells whether `self._storage.upload_file` succeeds; `errMsg` is
the stringified exception returned on failure. -/
def upload_file (available uploadOk : Bool) (filename : String)
    (user_id : Option String) (errMsg : String) : Bool × String :=
  if !available then (false, "App storage not available")
  else
    let storage_path :=
      if pyTruthy user_id then "users/" ++ user_id.getD "" ++ "/" ++ filename
      else "uploads/" ++ filename
    if uploadOk then (true, storage_path) else (false, errMsg)

/-- The data-model invariant on the region table: a region with `person_id`
unset is unverified, and a region with `person_id` set is verified. -/
def regionInv (regions : List PhotoPerson) : Prop :=
  ∀ r ∈ regions, (r.person_id = none → r.verified = false) ∧
    (r.person_id ≠ none → r.verified = true)

/-! ### Concrete fixtures used to witness the theorems -/

/-- A photo row used as concrete input. -/
def photoA : Photo := { id := 1, user_id := 1, file_path := "a.jpg" }

/-- An unverified, unidentified face region of `photoA`. -/
def regionB : PhotoPerson :=
  { id := 5, photo_id := 1, person_id := none, face_x := 10, face_y := 10,
    face_width := 50, face_height := 50, confidence := placeholderConfidence,
    verified := false }

/-- The empty store. -/
def stEmpty : Store := { photos := [], people := [], regions := [], nextRegionId := 1 }

/-- A store holding just `photoA`. -/
def stOnePhoto : Store :=
  { photos := [photoA], people := [], regions := [], nextRegionId := 1 }

/-- A store holding `photoA` and the detected region `regionB`. -/
def stPhotoRegion : Store :=
  { photos := [photoA], people := [], regions := [regionB], nextRegionId := 6 }

/-- Environment in which the OpenCV import failed. -/
def envUnavailable : Env :=
  { available := false, fileExists := fun _ => true,
    imread := fun _ => some [{ x := 1, y := 2, w := 3, h := 4 }], commitOk := true }

/-- Environment in which everything works and one face is detected. -/
def envOk : Env :=
  { available := true, fileExists := fun _ => true,
    imread := fun _ => some [{ x := 1, y := 2, w := 3, h := 4 }], commitOk := true }

/-- Environment in which detection works but `db.session.commit()` raises. -/
def envCommitFail : Env :=
  { available := true, fileExists := fun _ => true,
    imread := fun _ => some [{ x := 1, y := 2, w := 3, h := 4 }], commitOk := false }

/-- Environment in which no file exists on disk. -/
def envMissingFile : Env :=
  { available := true, fileExists := fun _ => false,
    imread := fun _ => none, commitOk := true }

/-- Environment in which the file exists but `cv2.imread` cannot decode it. -/
def envUnreadable : Env :=
  { available := true, fileExists := fun _ => true,
    imread := fun _ => none, commitOk := true }

/-- Environment in which the file decodes and the cascade finds no faces. -/
def envZeroFaces : Env :=
  { available := true, fileExists := fun _ => true,
    imread := fun _ => some [], commitOk := true }

/-! ### Helper lemmas about `find?` and the insertion loop -/

theorem find?_append_left_isSome {α} (p : α → Bool) (l l' : List α)
    (h : (l.find? p).isSome) : ((l ++ l').find? p).isSome := by
  induction l with
  | nil => simp [List.find?] at h
  | cons a t ih =>
    simp only [List.cons_append, List.find?]
    cases hp : p a with
    | true => simp
    | false =>
      simp only [List.find?, hp] at h
      exact ih h

theorem findExisting_append_isSome (regions extra : List PhotoPerson)
    (photo_id : Nat) (f : FaceResult)
    (h : (findExisting regions photo_id f).isSome) :
    (findExisting (regions ++ extra) photo_id f).isSome :=
  find?_append_left_isSome _ regions extra h

theorem findExisting_newRegion (regions : List PhotoPerson)
    (nid photo_id : Nat) (f : FaceResult) :
    (findExisting (regions ++ [newRegion nid photo_id f]) photo_id f).isSome := by
  induction regions with
  | nil => simp [findExisting, newRegion, List.find?]
  | cons a t ih =>
    simp only [findExisting, List.cons_append, List.find?] at ih ⊢
    cases hp : (a.photo_id == photo_id && a.face_x == f.x && a.face_y == f.y &&
        a.face_width == f.width && a.face_height == f.height) with
    | true => simp
    | false => exact ih

theorem insertLoop_mono (photo_id : Nat) (faces : List FaceResult) :
    ∀ regions nid, ∃ extra,
      (insertLoop photo_id faces regions nid).1 = regions ++ extra := by
  induction faces with
  | nil => intro regions nid; exact ⟨[], by simp [insertLoop]⟩
  | cons f rest ih =>
    intro regions nid
    cases hfe : findExisting regions photo_id f with
    | some pp =>
      obtain ⟨extra, hx⟩ := ih regions nid
      exact ⟨extra, by simpa [insertLoop, hfe] using hx⟩
    | none =>
      obtain ⟨extra, hx⟩ := ih (regions ++ [newRegion nid photo_id f]) (nid + 1)
      refine ⟨newRegion nid photo_id f :: extra, ?_⟩
      simp only [insertLoop, hfe]
      rw [hx, List.append_assoc]
      rfl

theorem insertLoop_finds (photo_id : Nat) (faces : List FaceResult) :
    ∀ regions nid f, f ∈ faces →
      (findExisting (insertLoop photo_id faces regions nid).1 photo_id f).isSome := by
  induction faces with
  | nil => intro _ _ _ hmem; cases hmem
  | cons g rest ih =>
    intro regions nid f hmem
    cases hfe : findExisting regions photo_id g with
    | some pp =>
      simp only [insertLoop, hfe]
      rcases List.mem_cons.mp hmem with h | h
      · obtain ⟨extra, hx⟩ := insertLoop_mono photo_id rest regions nid
        rw [hx, h]
        exact findExisting_append_isSome _ _ _ _ (by simp [hfe])
      · exact ih regions nid f h
    | none =>
      simp only [insertLoop, hfe]
      rcases List.mem_cons.mp hmem with h | h
      · obtain ⟨extra, hx⟩ :=
          insertLoop_mono photo_id rest (regions ++ [newRegion nid photo_id g]) (nid + 1)
        rw [hx, h]
        exact findExisting_append_isSome _ _ _ _
          (findExisting_newRegion regions nid photo_id g)
      · exact ih _ _ f h

theorem insertLoop_all_found (photo_id : Nat) (faces : List FaceResult) :
    ∀ regions nid, (∀ f ∈ faces, (findExisting regions photo_id f).isSome) →
      insertLoop photo_id faces regions nid = (regions, nid) := by
  induction faces with
  | nil => intro regions nid _; rfl
  | cons f rest ih =>
    intro regions nid hall
    have hf := hall f (List.mem_cons_self f rest)
    cases hfe : findExisting regions photo_id f with
    | none => rw [hfe] at hf; simp at hf
    | some pp =>
      simp only [insertLoop, hfe]
      exact ih regions nid (fun g hg => hall g (List.mem_cons_of_mem f hg))

/-- Claim C1: Running `process_photo_for_faces` twice on the same photo with
the same environment (hence the same detected candidates) inserts each
region at most once: the second run leaves the region table exactly as the
first run left it, because every candidate whose exact rectangle already
exists for the photo is skipped rather than inserted again. -/
theorem process_photo_for_faces_idempotent (env : Env) (st : Store) (photo_id : Nat) :
    (process_photo_for_faces env
      (process_photo_for_faces env st photo_id).2 photo_id).2.regions
      = (process_photo_for_faces env st photo_id).2.regions := by
  cases hav : env.available with
  | false => simp [process_photo_for_faces, hav]
  | true =>
    cases hp : st.photos.find? (fun p => p.id == photo_id) with
    | none => simp [process_photo_for_faces, hav, hp]
    | some photo =>
      cases hex : env.fileExists photo.file_path with
      | false => simp [process_photo_for_faces, hav, hp, hex]
      | true =>
        cases hfa : (detect_faces_in_photo env photo.file_path).isEmpty with
        | true => simp [process_photo_for_faces, hav, hp, hex, hfa]
        | false =>
          cases hc : env.commitOk with
          | false => simp [process_photo_for_faces, hav, hp, hex, hfa, hc]
          | true =>
            have h2 : insertLoop photo_id (detect_faces_in_photo env photo.file_path)
                (insertLoop photo_id (detect_faces_in_photo env photo.file_path)
                  st.regions st.nextRegionId).1
                (insertLoop photo_id (detect_faces_in_photo env photo.file_path)
                  st.regions st.nextRegionId).2
                = ((insertLoop photo_id (detect_faces_in_photo env photo.file_path)
                  st.regions st.nextRegionId).1,
                   (insertLoop photo_id (detect_faces_in_photo env photo.file_path)
                  st.regions st.nextRegionId).2) :=
              insertLoop_all_found _ _ _ _
                (fun f hf => insertLoop_finds photo_id _ st.regions st.nextRegionId f hf)
            simp [process_photo_for_faces, hav, hp, hex, hfa, hc, h2]

theorem insertLoop_regionInv (photo_id : Nat) (faces : List FaceResult) :
    ∀ regions nid, regionInv regions →
      regionInv (insertLoop photo_id faces regions nid).1 := by
  induction faces with
  | nil => intro regions nid h; exact h
  | cons f rest ih =>
    intro regions nid h
    cases hfe : findExisting regions photo_id f with
    | some pp =>
      simp only [insertLoop, hfe]
      exact ih regions nid h
    | none =>
      simp only [insertLoop, hfe]
      apply ih
      intro r hr
      rcases List.mem_append.mp hr with h1 | h1
      · exact h r h1
      · simp only [List.mem_singleton] at h1
        subst h1
        simp [newRegion]

theorem process_regions_shape (env : Env) (st : Store) (photo_id : Nat) :
    (process_photo_for_faces env st photo_id).2.regions = st.regions ∨
    (process_photo_for_faces env st photo_id).2.regions =
      (insertLoop photo_id
        (detect_faces_in_photo env
          (((st.photos.find? (fun p => p.id == photo_id)).getD photoA).file_path))
        st.regions st.nextRegionId).1 := by
  cases hav : env.available with
  | false => left; simp [process_photo_for_faces, hav]
  | true =>
    cases hp : st.photos.find? (fun p => p.id == photo_id) with
    | none => left; simp [process_photo_for_faces, hav, hp]
    | some photo =>
      cases hex : env.fileExists photo.file_path with
      | false => left; simp [process_photo_for_faces, hav, hp, hex]
      | true =>
        cases hfa : (detect_faces_in_photo env photo.file_path).isEmpty with
        | true => left; simp [process_photo_for_faces, hav, hp, hex, hfa]
        | false =>
          cases hc : env.commitOk with
          | false => left; simp [process_photo_for_faces, hav, hp, hex, hfa, hc]
          | true => right; simp [process_photo_for_faces, hav, hp, hex, hfa, hc]

/-- Claim C2: When the capability probe reported the engine unavailable,
`detect_faces_in_photo` returns the empty list for every path, and
`process_photo_for_faces` returns `false` with the store unchanged — for
every store, so the result neither reads nor writes the region table. -/
theorem detection_unavailable_noop (env : Env) (st : Store)
    (photo_path : String) (photo_id : Nat) (hav : env.available = false) :
    detect_faces_in_photo env photo_path = [] ∧
    process_photo_for_faces env st photo_id = (false, st) := by
  constructor
  · simp [detect_faces_in_photo, hav]
  · simp [process_photo_for_faces, hav]

/-- Witness for C2 at a concrete unavailable environment and store. -/
theorem detection_unavailable_noop_witness :
    detect_faces_in_photo envUnavailable "a.jpg" = [] ∧
    process_photo_for_faces envUnavailable stPhotoRegion 1 = (false, stPhotoRegion) :=
  detection_unavailable_noop envUnavailable stPhotoRegion "a.jpg" 1 rfl

/-- Claim C3: If `db.session.commit()` fails during the insert batch of
`process_photo_for_faces` (reached: engine available, photo found, file
present, at least one candidate) or during the update of `tag_face`
(reached: region found), the `except` handler rolls the session back: the
call returns `false` and the store is exactly the pre-call store, so the
caller may retry. -/
theorem persistence_failure_rollback (env : Env) (st : Store)
    (photo_id region_id person_id : Nat) (photo : Photo)
    (hc : env.commitOk = false)
    (hav : env.available = true)
    (hp : st.photos.find? (fun p => p.id == photo_id) = some photo)
    (hex : env.fileExists photo.file_path = true)
    (hfaces : (detect_faces_in_photo env photo.file_path).isEmpty = false)
    (hreg : (st.regions.find? (fun pp => pp.id == region_id)).isSome) :
    process_photo_for_faces env st photo_id = (false, st) ∧
    tag_face env st region_id person_id = (false, st) := by
  constructor
  · simp [process_photo_for_faces, hav, hp, hex, hfaces, hc]
  · obtain ⟨pp, hpp⟩ := Option.isSome_iff_exists.mp hreg
    simp [tag_face, hpp, hc]

/-- Witness for C3: a concrete failing-commit environment over a store with
one photo and one region. -/
theorem persistence_failure_rollback_witness :
    process_photo_for_faces envCommitFail stPhotoRegion 1 = (false, stPhotoRegion) ∧
    tag_face envCommitFail stPhotoRegion 5 7 = (false, stPhotoRegion) :=
  persistence_failure_rollback envCommitFail stPhotoRegion 1 5 7 photoA
    rfl rfl rfl rfl rfl rfl

/-- Claim C4: A successful `tag_face` on an existing region overwrites that
region's `person_id` with the given person and sets `verified` to true,
regardless of its prior person/verified state; all its other fields and all
other regions are left unchanged (the region table after the call is the
pointwise overwrite of the table before it). -/
theorem tag_face_sets_person_and_verified (env : Env) (st : Store)
    (region_id person_id : Nat) (pp : PhotoPerson)
    (hfind : st.regions.find? (fun r => r.id == region_id) = some pp)
    (hc : env.commitOk = true) :
    (tag_face env st region_id person_id).1 = true ∧
    (tag_face env st region_id person_id).2.regions =
      st.regions.map (fun r =>
        if r.id == region_id then
          { r with person_id := some person_id, verified := true }
        else r) ∧
    ∀ r ∈ (tag_face env st region_id person_id).2.regions,
      r.id = region_id → r.person_id = some person_id ∧ r.verified = true := by
  have hmap : (tag_face env st region_id person_id).2.regions =
      st.regions.map (fun r =>
        if r.id == region_id then
          { r with person_id := some person_id, verified := true }
        else r) := by
    simp [tag_face, hfind, hc]
  refine ⟨by simp [tag_face, hfind, hc], hmap, ?_⟩
  intro r hr hid
  rw [hmap] at hr
  obtain ⟨r0, hr0, hr0eq⟩ := List.mem_map.mp hr
  cases hb : (r0.id == region_id) with
  | true =>
    rw [if_pos hb] at hr0eq
    subst hr0eq
    exact ⟨rfl, rfl⟩
  | false =>
    rw [if_neg (by simp [hb])] at hr0eq
    subst hr0eq
    rw [hid] at hb
    simp at hb

/-- Witness for C4 at a concrete store with one region. -/
theorem tag_face_sets_person_and_verified_witness :
    (tag_face envOk stPhotoRegion 5 7).1 = true ∧
    (tag_face envOk stPhotoRegion 5 7).2.regions =
      stPhotoRegion.regions.map (fun r =>
        if r.id == 5 then { r with person_id := some 7, verified := true }
        else r) :=
  ⟨(tag_face_sets_person_and_verified envOk stPhotoRegion 5 7 regionB rfl rfl).1,
   (tag_face_sets_person_and_verified envOk stPhotoRegion 5 7 regionB rfl rfl).2.1⟩

/-- Claim C5: `tag_face` on a region id that matches no stored region
returns `false` and leaves the store untouched. -/
theorem tag_face_missing_region_noop (env : Env) (st : Store)
    (region_id person_id : Nat)
    (hfind : st.regions.find? (fun r => r.id == region_id) = none) :
    tag_face env st region_id person_id = (false, st) := by
  simp [tag_face, hfind]

/-- Witness for C5: region id 99 does not exist in the concrete store. -/
theorem tag_face_missing_region_noop_witness :
    tag_face envOk stPhotoRegion 99 7 = (false, stPhotoRegion) :=
  tag_face_missing_region_noop envOk stPhotoRegion 99 7 rfl

/-- Claim C6: The invariant "person unset implies unverified, person set
implies verified" is preserved by both `process_photo_for_faces` (detection
only inserts rows with `person_id = None, verified = False`) and `tag_face`
(tagging sets `person_id` and `verified = True` together). -/
theorem region_invariant_preserved (env : Env) (st : Store)
    (photo_id region_id person_id : Nat)
    (hinv : regionInv st.regions) :
    regionInv (process_photo_for_faces env st photo_id).2.regions ∧
    regionInv (tag_face env st region_id person_id).2.regions := by
  constructor
  · rcases process_regions_shape env st photo_id with h | h
    · rw [h]; exact hinv
    · rw [h]; exact insertLoop_regionInv _ _ _ _ hinv
  · cases hf : st.regions.find? (fun r => r.id == region_id) with
    | none => simp only [tag_face, hf]; exact hinv
    | some pp =>
      cases hc : env.commitOk with
      | false => simp only [tag_face, hf, hc, Bool.false_eq_true, if_false]; exact hinv
      | true =>
        simp only [tag_face, hf, hc, if_true]
        intro r hr
        obtain ⟨r0, hr0, hr0eq⟩ := List.mem_map.mp hr
        cases hb : (r0.id == region_id) with
        | true =>
          rw [if_pos hb] at hr0eq
          subst hr0eq
          constructor
          · intro h; cases h
          · intro _; rfl
        | false =>
          rw [if_neg (by simp [hb])] at hr0eq
          subst hr0eq
          exact hinv r0 hr0

/-- Witness for C6 at a concrete store satisfying the invariant. -/
theorem region_invariant_preserved_witness :
    regionInv (process_photo_for_faces envOk stPhotoRegion 1).2.regions ∧
    regionInv (tag_face envOk stPhotoRegion 5 7).2.regions :=
  region_invariant_preserved envOk stPhotoRegion 1 5 7
    (by simp [regionInv, stPhotoRegion, regionB])

/-- Counterexample to claim C7 as stated: for a photo whose file is missing
on disk (`os.path.exists` false), `process_photo_for_faces` returns `false`
— the missing-file condition is not treated as zero faces with success. -/
theorem process_missing_file_cex :
    stOnePhoto.photos.find? (fun p => p.id == 1) = some photoA ∧
    envMissingFile.fileExists photoA.file_path = false ∧
    (process_photo_for_faces envMissingFile stOnePhoto 1).1 = false :=
  ⟨rfl, rfl, rfl⟩

/-- Claim C7 (amended): if the photo exists and its file is present on disk
but the image cannot be decoded, processing treats the condition as zero
faces found and reports success with the store unchanged; if the file is
missing on disk, `process_photo_for_faces` instead returns `false` (also
with the store unchanged) — only the decode failure, not the missing file,
is absorbed as best-effort success. -/
theorem decode_failure_best_effort (env : Env) (st : Store) (photo_id : Nat)
    (photo : Photo)
    (hav : env.available = true)
    (hp : st.photos.find? (fun p => p.id == photo_id) = some photo) :
    (env.fileExists photo.file_path = true → env.imread photo.file_path = none →
      process_photo_for_faces env st photo_id = (true, st)) ∧
    (env.fileExists photo.file_path = false →
      process_photo_for_faces env st photo_id = (false, st)) := by
  constructor
  · intro hex hread
    simp [process_photo_for_faces, hav, hp, hex, detect_faces_in_photo, hread]
  · intro hex
    simp [process_photo_for_faces, hav, hp, hex]

/-- Witness for the amended C7: both the unreadable-file and the
missing-file environments at a concrete store. -/
theorem decode_failure_best_effort_witness :
    process_photo_for_faces envUnreadable stOnePhoto 1 = (true, stOnePhoto) ∧
    process_photo_for_faces envMissingFile stOnePhoto 1 = (false, stOnePhoto) :=
  ⟨(decode_failure_best_effort envUnreadable stOnePhoto 1 photoA rfl rfl).1 rfl rfl,
   (decode_failure_best_effort envMissingFile stOnePhoto 1 photoA rfl rfl).2 rfl⟩

/-- Claim C8: When any underlying query of `get_face_detection_stats`
fails, the call returns the well-formed all-zero structure with
`detection_available = false` and the error text, for every user and
store, instead of propagating the failure. -/
theorem stats_query_failure_all_zero (env : Env) (st : Store) (user_id : Nat)
    (errMsg : String) :
    get_face_detection_stats env st user_id false errMsg =
      { total_photos := 0, photos_with_faces := 0, verified_tags := 0,
        unverified_tags := 0, unique_people := 0,
        detection_available := false, error := some errMsg } := by
  simp [get_face_detection_stats]

/-- Claim C9: For an existing photo whose file is reachable, when detection
finds zero faces `process_photo_for_faces` reports success and inserts no
region: the store is returned unchanged. -/
theorem zero_faces_success (env : Env) (st : Store) (photo_id : Nat)
    (photo : Photo)
    (hav : env.available = true)
    (hp : st.photos.find? (fun p => p.id == photo_id) = some photo)
    (hex : env.fileExists photo.file_path = true)
    (hzero : detect_faces_in_photo env photo.file_path = []) :
    process_photo_for_faces env st photo_id = (true, st) := by
  simp [process_photo_for_faces, hav, hp, hex, hzero]

/-- Witness for C9: an environment whose cascade returns no rectangles. -/
theorem zero_faces_success_witness :
    process_photo_for_faces envZeroFaces stOnePhoto 1 = (true, stOnePhoto) :=
  zero_faces_success envZeroFaces stOnePhoto 1 photoA rfl rfl rfl rfl

/-- Counterexample to claim C10 as stated: the empty string is a supplied
`user_id`, but because `if user_id:` is a Python truthiness test the upload
is stored under `uploads/`, not under `users//` as the claim's
`users/{user_id}/{filename}` shape predicts. -/
theorem upload_file_empty_user_id_cex :
    upload_file true true "f.jpg" (some "") "err" = (true, "uploads/f.jpg") ∧
    ("uploads/f.jpg" : String) ≠ "users//f.jpg" := by
  exact ⟨rfl, by decide⟩

/-- Claim C10 (amended): when the storage backend is available and the
underlying upload succeeds, `upload_file` returns
`(true, "users/{user_id}/{filename}")` if a non-empty `user_id` was
supplied and `(true, "uploads/{filename}")` otherwise (including the
supplied-but-empty `user_id`, which Python's truthiness test treats like
`None`); when the backend is unavailable it returns
`(false, "App storage not available")` regardless of the upload outcome. -/
theorem upload_file_paths (filename errMsg : String)
    (user_id : Option String) (ok : Bool) :
    (∀ uid, user_id = some uid → uid ≠ "" →
      upload_file true true filename user_id errMsg =
        (true, "users/" ++ uid ++ "/" ++ filename)) ∧
    ((user_id = none ∨ user_id = some "") →
      upload_file true true filename user_id errMsg =
        (true, "uploads/" ++ filename)) ∧
    upload_file false ok filename user_id errMsg =
      (false, "App storage not available") := by
  refine ⟨?_, ?_, rfl⟩
  · intro uid h hne
    subst h
    simp [upload_file, pyTruthy, hne]
  · rintro (h | h) <;> subst h <;> simp [upload_file, pyTruthy]

/-- Witness for the amended C10: a non-empty user id, a missing user id,
and the unavailable backend. -/
theorem upload_file_paths_witness :
    upload_file true true "f.jpg" (some "alice") "err" = (true, "users/alice/f.jpg") ∧
    upload_file true true "f.jpg" none "err" = (true, "uploads/f.jpg") ∧
    upload_file false true "f.jpg" (some "alice") "err" =
      (false, "App storage not available") :=
  ⟨(upload_file_paths "f.jpg" "err" (some "alice") true).1 "alice" rfl (by decide),
   (upload_file_paths "f.jpg" "err" none true).2.1 (Or.inl rfl),
   (upload_file_paths "f.jpg" "err" (some "alice") true).2.2⟩
